import Mathlib

/-!
Verification development for the OCR service repository.

Shallow embedding of the two subsystems the specification covers:
the configuration snapshot (src/app/config.py), the model artifact
lifecycle manager (src/app/model_store.py), and the inference request
pipeline (src/main.py).  Python integers are embedded as `Int`
(lengths as `Nat`), filesystem paths as lists of components, and the
external world (path resolution, the remote registry, marker-write
success) as explicit environment parameters.
-/

namespace OCR

/-! ## Configuration snapshot (src/app/config.py)

`Settings` holds the fields of `config.Settings` that the verified
subsystems read.  Float-valued fields (`temperature`, `top_p`,
`vllm_gpu_memory_utilization`) are outside the embedding; no claim
mentions them.  Pydantic's env parsing / type coercion happens before
the field validators and is outside the embedding: `RawSettings` holds
already-typed field values, and `mkSettings` applies the field
validators of the source in declaration order. -/

/-- The constant `DISPLAY_MODEL_NAME` from src/app/config.py. -/
def DISPLAY_MODEL_NAME : String := "Sharifsetup-OCR"

/-- ASCII whitespace, the characters Python `str.strip()` removes from
ASCII text. -/
def isPySpace (c : Char) : Bool :=
  c = ' ' ∨ c = '\t' ∨ c = '\n' ∨ c = '\r' ∨ c = '\x0b' ∨ c = '\x0c'

/-- Python `str.strip()` (for ASCII text): drop leading and trailing
whitespace. -/
def pyStrip (s : String) : String :=
  String.mk (((s.data.dropWhile isPySpace).reverse.dropWhile isPySpace).reverse)

/-- Python `str.upper()` (for ASCII text). -/
def pyUpper (s : String) : String :=
  String.mk (s.data.map Char.toUpper)

/-- Python `str.lower()` (for ASCII text). -/
def pyLower (s : String) : String :=
  String.mk (s.data.map Char.toLower)

/-- The validated configuration snapshot: the fields of
`config.Settings` used by the verified subsystems. -/
structure Settings where
  app_name : String
  log_level : String
  model_name : String
  model_store_dir : String
  require_local_model_store : Bool
  auto_download_model_store : Bool
  model_force_download : Bool
  model_repo_id : String
  model_filename : Option String
  hf_token : Option String
  vllm_base_url : String
  vllm_model_id : String
  vllm_timeout_seconds : Int
  vllm_startup_timeout_seconds : Int
  vllm_port : Int
  vllm_dtype : String
  vllm_tensor_parallel_size : Int
  top_k : Int
  max_tokens : Int
  inference_timeout_seconds : Int
  max_upload_megabytes : Int
deriving DecidableEq, Repr

/-- Property `Settings.max_upload_bytes` from src/app/config.py:
`max_upload_megabytes * 1024 * 1024`. -/
def Settings.max_upload_bytes (s : Settings) : Int :=
  s.max_upload_megabytes * 1024 * 1024

/-- Raw (pre-validation) field values handed to the `Settings`
constructor, mirroring the fields modelled in `Settings`. -/
structure RawSettings where
  app_name : String
  log_level : String
  model_name : String
  model_store_dir : String
  require_local_model_store : Bool
  auto_download_model_store : Bool
  model_force_download : Bool
  model_repo_id : String
  model_filename : Option String
  hf_token : Option String
  vllm_base_url : String
  vllm_model_id : String
  vllm_timeout_seconds : Int
  vllm_startup_timeout_seconds : Int
  vllm_port : Int
  vllm_dtype : String
  vllm_tensor_parallel_size : Int
  top_k : Int
  max_tokens : Int
  inference_timeout_seconds : Int
  max_upload_megabytes : Int
deriving DecidableEq, Repr

/-- Field validator `validate_log_level`: upper-case, strip, and check
membership in the set of known level names. -/
def validateLogLevel (value : String) : Except String String :=
  let level := pyUpper (pyStrip value)
  if level = "CRITICAL" ∨ level = "ERROR" ∨ level = "WARNING" ∨
      level = "INFO" ∨ level = "DEBUG" then
    .ok level
  else
    .error "log_level must be one of the known levels"

/-- Field validator `enforce_display_name` (applies to `app_name`,
`model_name`, `vllm_model_id`). -/
def enforceDisplayName (value : String) : Except String String :=
  let normalized := pyStrip value
  if normalized = DISPLAY_MODEL_NAME then .ok normalized
  else .error "Display name mismatch"

/-- Field validator `normalize_model_filename`: `None` stays `None`,
a blank string becomes `None`, otherwise the stripped string. -/
def normalizeModelFilename (value : Option String) : Option String :=
  match value with
  | none => none
  | some v =>
    let normalized := pyStrip v
    if normalized = "" then none else some normalized

/-- Drop trailing slash characters, as Python `str.rstrip("/")`. -/
def rstripSlashes (s : String) : String :=
  String.mk ((s.data.reverse.dropWhile (fun c => c = '/')).reverse)

/-- Field validator `normalize_vllm_base_url`: strip, drop trailing
slashes, reject the empty result. -/
def normalizeVllmBaseUrl (value : String) : Except String String :=
  let normalized := rstripSlashes (pyStrip value)
  if normalized = "" then .error "vllm base_url must not be empty"
  else .ok normalized

/-- Field validator `validate_vllm_port`: the port must lie in 1-65535. -/
def validateVllmPort (value : Int) : Except String Int :=
  if value < 1 ∨ value > 65535 then
    .error "vllm_port must be between 1 and 65535"
  else .ok value

/-- Field validator `validate_vllm_dtype`: strip, lower-case, check
membership in the allowed dtype names. -/
def validateVllmDtype (value : String) : Except String String :=
  let normalized := pyLower (pyStrip value)
  if normalized = "auto" ∨ normalized = "half" ∨ normalized = "float16" ∨
      normalized = "bfloat16" ∨ normalized = "float" ∨ normalized = "float32" then
    .ok normalized
  else
    .error "vllm_dtype must be one of the allowed dtypes"

/-- Field validator `validate_vllm_tensor_parallel_size`. -/
def validateVllmTensorParallelSize (value : Int) : Except String Int :=
  if value < 1 then .error "vllm_tensor_parallel_size must be >= 1"
  else .ok value

/-- Field validator `validate_top_k`. -/
def validateTopK (value : Int) : Except String Int :=
  if value < 1 then .error "top_k must be >= 1" else .ok value

/-- Field validator `normalize_hf_token`: keep a non-blank token
stripped, else fall back to the ambient `HF_TOKEN` environment
variable (`envToken`), else `None`. -/
def normalizeHfToken (envToken : Option String) (value : Option String) :
    Option String :=
  match value with
  | some v =>
    if v ≠ "" ∧ pyStrip v ≠ "" then some (pyStrip v)
    else
      match envToken with
      | some f => if f ≠ "" ∧ pyStrip f ≠ "" then some (pyStrip f) else none
      | none => none
  | none =>
    match envToken with
    | some f => if f ≠ "" ∧ pyStrip f ≠ "" then some (pyStrip f) else none
    | none => none

/-- Construction of the configuration snapshot: apply each field
validator of `config.Settings` to the raw values, in the source's
declaration order.  `expandUser` abstracts `Path.expanduser` (validator
`expand_model_store_dir`); `envToken` abstracts `os.getenv("HF_TOKEN")`.
Fields with no validator in the source (`vllm_timeout_seconds`,
`vllm_startup_timeout_seconds`, `max_tokens`,
`inference_timeout_seconds`, `max_upload_megabytes`, the Bool flags,
`model_repo_id`) pass through unchecked, as in the source. -/
def mkSettings (expandUser : String → String) (envToken : Option String)
    (raw : RawSettings) : Except String Settings := do
  let log_level ← validateLogLevel raw.log_level
  let app_name ← enforceDisplayName raw.app_name
  let model_name ← enforceDisplayName raw.model_name
  let vllm_model_id ← enforceDisplayName raw.vllm_model_id
  let model_store_dir := expandUser raw.model_store_dir
  let model_filename := normalizeModelFilename raw.model_filename
  let vllm_base_url ← normalizeVllmBaseUrl raw.vllm_base_url
  let vllm_port ← validateVllmPort raw.vllm_port
  let vllm_dtype ← validateVllmDtype raw.vllm_dtype
  let vllm_tensor_parallel_size ←
    validateVllmTensorParallelSize raw.vllm_tensor_parallel_size
  let top_k ← validateTopK raw.top_k
  let hf_token := normalizeHfToken envToken raw.hf_token
  pure
    { app_name := app_name
      log_level := log_level
      model_name := model_name
      model_store_dir := model_store_dir
      require_local_model_store := raw.require_local_model_store
      auto_download_model_store := raw.auto_download_model_store
      model_force_download := raw.model_force_download
      model_repo_id := raw.model_repo_id
      model_filename := model_filename
      hf_token := hf_token
      vllm_base_url := vllm_base_url
      vllm_model_id := vllm_model_id
      vllm_timeout_seconds := raw.vllm_timeout_seconds
      vllm_startup_timeout_seconds := raw.vllm_startup_timeout_seconds
      vllm_port := vllm_port
      vllm_dtype := vllm_dtype
      vllm_tensor_parallel_size := vllm_tensor_parallel_size
      top_k := top_k
      max_tokens := raw.max_tokens
      inference_timeout_seconds := raw.inference_timeout_seconds
      max_upload_megabytes := raw.max_upload_megabytes }

/-- A raw configuration whose every validated field carries the
source's default value. -/
def defaultRaw : RawSettings where
  app_name := DISPLAY_MODEL_NAME
  log_level := "INFO"
  model_name := DISPLAY_MODEL_NAME
  model_store_dir := "model_store"
  require_local_model_store := true
  auto_download_model_store := false
  model_force_download := false
  model_repo_id := "allenai/olmOCR-2-7B-1025-FP8"
  model_filename := none
  hf_token := none
  vllm_base_url := "http://127.0.0.1:8001"
  vllm_model_id := DISPLAY_MODEL_NAME
  vllm_timeout_seconds := 120
  vllm_startup_timeout_seconds := 600
  vllm_port := 8001
  vllm_dtype := "bfloat16"
  vllm_tensor_parallel_size := 1
  top_k := 1
  max_tokens := 4096
  inference_timeout_seconds := 90
  max_upload_megabytes := 15

/-! ## Filesystem model

Paths are lists of name components (already absolute and resolved; the
resolution `Path(...).expanduser().resolve()` of the source is
abstracted by the environment's `resolve` function).  A filesystem is
the set of existing directories and regular files.  Following
`pathlib`, joining an empty component leaves a path unchanged. -/

/-- A resolved filesystem path, as a list of name components. -/
abbrev FsPath := List String

/-- A filesystem state: the directories and regular files that exist. -/
structure FS where
  dirs : List FsPath
  files : List FsPath
deriving DecidableEq, Repr

/-- `pathlib` join with one textual component: an empty component is
dropped, any other is appended. -/
def joinComponent (p : FsPath) (s : String) : FsPath :=
  if s = "" then p else p ++ [s]

/-- `p` is a strict ancestor-prefix of `q`. -/
def strictPrefix (p q : FsPath) : Bool :=
  p.isPrefixOf q && decide (p.length < q.length)

/-- `Path.exists() and Path.is_dir()`: the path was created as a
directory, or some existing file lies strictly below it. -/
def FS.dirExists (fs : FS) (p : FsPath) : Bool :=
  fs.dirs.contains p || fs.files.any (fun f => strictPrefix p f)

/-- `Path.exists() and Path.is_file()`. -/
def FS.fileExists (fs : FS) (p : FsPath) : Bool :=
  fs.files.contains p

/-- `Path.mkdir(parents=True, exist_ok=True)`, restricted to recording
the directory itself (ancestor directories are never queried by the
embedded code). -/
def FS.mkdirP (fs : FS) (p : FsPath) : FS :=
  if fs.dirs.contains p then fs else ⟨p :: fs.dirs, fs.files⟩

/-- `Path.touch(exist_ok=True)` / file creation by download. -/
def FS.addFile (fs : FS) (p : FsPath) : FS :=
  if fs.files.contains p then fs else ⟨fs.dirs, p :: fs.files⟩

/-- Add a batch of files. -/
def FS.addFiles (fs : FS) (ps : List FsPath) : FS :=
  ps.foldl FS.addFile fs

/-- Filesystem extension: every directory and file of `fs` still
exists in the second filesystem.  All operations of the embedded
bootstrap only add entries, so each run is `FS.le`-increasing. -/
def FS.le (fs fs' : FS) : Prop :=
  (∀ p, p ∈ fs.dirs → p ∈ fs'.dirs) ∧ (∀ p, p ∈ fs.files → p ∈ fs'.files)

/-! ## Glob matching (`fnmatch` semantics used by `Path.rglob`)

One pattern component against one name component, supporting `*`, `?`
and `[...]` character classes (with `!` negation and `a-b` ranges; an
unterminated `[` is a literal).  Defined with explicit fuel — the
pattern only ever shrinks, so fuel equal to the pattern length
suffices; no theorem in this development unfolds the matcher. -/

/-- Does the character class (the characters between the brackets)
contain `c`?  Handles `a-b` ranges. -/
def classContains : List Char → Char → Bool
  | a :: '-' :: b :: rest, c =>
    (a.val ≤ c.val ∧ c.val ≤ b.val) ∨ classContains rest c
  | a :: rest, c => a = c ∨ classContains rest c
  | [], _ => false

/-- Split a pattern tail at the first `]`, returning the class body
and the remainder; `none` when the class is unterminated. -/
def splitClassBody (cs : List Char) : Option (List Char × List Char) :=
  match cs.dropWhile (fun c => c ≠ ']') with
  | [] => none
  | _ :: rest => some (cs.takeWhile (fun c => c ≠ ']'), rest)

/-- Match one glob-pattern component against one name component. -/
def globMatchAux (fuel : Nat) (pat str : List Char) : Bool :=
  match fuel with
  | 0 => pat = [] ∧ str = []
  | fuel + 1 =>
    match pat, str with
    | [], s => s = []
    | '*' :: ps, [] => globMatchAux fuel ps []
    | '*' :: ps, c :: cs =>
      globMatchAux fuel ps (c :: cs) ∨ globMatchAux (fuel + 1) ('*' :: ps) cs
    | '?' :: ps, _ :: cs => globMatchAux fuel ps cs
    | '[' :: ps, c :: cs =>
      match splitClassBody ps with
      | some (body, rest) =>
        (match body with
         | '!' :: items => (¬ classContains items c) ∧ globMatchAux fuel rest cs
         | items => classContains items c ∧ globMatchAux fuel rest cs)
      | none => ('[' = c) ∧ globMatchAux fuel ps cs
    | p :: ps, c :: cs => p = c ∧ globMatchAux fuel ps cs
    | _ :: _, [] => false

/-- Match one glob-pattern component against one name component
(`fnmatch` without case folding, as on POSIX). -/
def globMatch (pat str : String) : Bool :=
  globMatchAux (pat.data.length + str.data.length + 1) pat.data str.data

/-- Does `pattern` contain one of fnmatch's wildcard characters
`*`, `?`, `[` (the `wildcard_chars` set of `_find_model_file`)? -/
def hasWildcard (pattern : String) : Bool :=
  pattern.data.any (fun c => c = '*' ∨ c = '?' ∨ c = '[')

/-! ## Sorting paths (Python `sorted` over `Path` values) -/

/-- String order by code points, as Python string comparison. -/
def strLtChars : List Char → List Char → Bool
  | [], [] => false
  | [], _ :: _ => true
  | _ :: _, [] => false
  | a :: as, b :: bs => if a = b then strLtChars as bs else a.val < b.val

/-- `Path` order: lexicographic over components, components compared
as Python strings. -/
def pathLe : FsPath → FsPath → Bool
  | [], _ => true
  | _ :: _, [] => false
  | a :: as, b :: bs => if a = b then pathLe as bs else strLtChars a.data b.data

/-- Insert into a `pathLe`-sorted list. -/
def insertPath (x : FsPath) : List FsPath → List FsPath
  | [] => [x]
  | y :: ys => if pathLe x y then x :: y :: ys else y :: insertPath x ys

/-- Insertion sort by `pathLe`: Python `sorted` over paths. -/
def sortPaths (l : List FsPath) : List FsPath :=
  l.foldr insertPath []

/-! ## Model store helpers (src/app/model_store.py) -/

/-- Python `str.split(sep)` for a one-character separator. -/
def splitOnCharList (sep : Char) : List Char → List (List Char)
  | [] => [[]]
  | c :: rest =>
    match splitOnCharList sep rest with
    | [] => if c = sep then [[], []] else [[c]]
    | h :: t => if c = sep then [] :: h :: t else (c :: h) :: t

/-- Split a string on `/`, dropping empty segments, as `pathlib` does
when a joined component itself contains separators. -/
def slashComponents (s : String) : List String :=
  ((splitOnCharList '/' s.data).map String.mk).filter (fun c => c ≠ "")

/-- `settings.model_repo_id.replace("/", "--")` from `resolve_repo_dir`. -/
def repoIdEscape (repoId : String) : String :=
  String.mk (repoId.data.flatMap (fun c => if c = '/' then ['-', '-'] else [c]))

/-- The external environment of one `ensure_model_store` run:
`resolve` abstracts `Path(...).expanduser().resolve()`; `fetched` is
the set of files (relative to the repo directory) that the remote
registry's `snapshot_download` deposits, already restricted by the
`allow_patterns` the call passes; `fetchOk` is whether the download
call raises; `markerWriteOk` is whether the marker `touch` succeeds. -/
structure Env where
  resolve : String → FsPath
  fetched : List FsPath
  fetchOk : Bool
  markerWriteOk : Bool

/-- `Path(settings.model_store_dir).expanduser().resolve()`. -/
def storeDirOf (env : Env) (s : Settings) : FsPath :=
  env.resolve s.model_store_dir

/-- `resolve_repo_dir` from src/app/model_store.py:
the store root joined with the escaped repo id. -/
def resolveRepoDir (env : Env) (s : Settings) : FsPath :=
  joinComponent (storeDirOf env s) (repoIdEscape s.model_repo_id)

/-- Does file `f` count as a `repo_dir.rglob(pattern)` hit?  `rglob`
matches the pattern's components (after an implicit leading `**`)
against the trailing components of `f` relative to `repoDir`. -/
def rglobMatch (repoDir : FsPath) (patComps : List String) (f : FsPath) : Bool :=
  let rel := f.drop repoDir.length
  strictPrefix repoDir f &&
    decide (patComps.length ≤ rel.length) &&
    ((rel.drop (rel.length - patComps.length)).zip patComps).all
      (fun cp => globMatch cp.2 cp.1)

/-- `_find_model_file` from src/app/model_store.py: inside `repo_dir`,
prefer an exact-name hit when the pattern has no wildcard, else the
lexicographically first `rglob` match. -/
def findModelFile (fs : FS) (repoDir : FsPath) (filenamePattern : String) :
    Option FsPath :=
  if fs.dirExists repoDir = false then none
  else
    let normalized := pyStrip filenamePattern
    if normalized = "" then none
    else
      let direct := repoDir ++ slashComponents normalized
      if !hasWildcard normalized && fs.fileExists direct then some direct
      else
        (sortPaths
          (fs.files.filter (rglobMatch repoDir (slashComponents normalized)))).head?

/-- `_has_expected_artifacts` from src/app/model_store.py. -/
def hasExpectedArtifacts (fs : FS) (repoDir : FsPath)
    (modelFilename : Option String) : Bool :=
  if fs.dirExists repoDir = false then false
  else
    match modelFilename with
    | some pattern => (findModelFile fs repoDir pattern).isSome
    | none => fs.files.any (fun f => strictPrefix repoDir f)

/-- `_write_bootstrap_marker` from src/app/model_store.py: touch
`<store>/.model_store_ready`; an `OSError` is logged and swallowed. -/
def writeBootstrapMarker (env : Env) (fs : FS) (storeDir : FsPath) : FS :=
  if env.markerWriteOk then fs.addFile (storeDir ++ [".model_store_ready"])
  else fs

/-- The three `RuntimeError` shapes `ensure_model_store` can raise
(the spec's `BootstrapError`), and the download-dependency error. -/
inductive BootstrapErr where
  | artifactsMissingDownloadDisabled (repoDir : FsPath)
  | downloadFailed (repoId : String) (repoDir : FsPath)
  | artifactsMissingAfterDownload (repoDir : FsPath)
deriving DecidableEq, Repr

/-- Filesystem effect of `_download_model_snapshot` up to the registry
call: create the store root and the repo directory.  The registry call
itself either raises (`env.fetchOk = false`, wrapped into
`BootstrapErr.downloadFailed`) or deposits `env.fetched` under the
repo directory.  (The source filters its kwargs against
`inspect.signature(snapshot_download)` and passes `allow_patterns`
when a filename is configured; both concern only the external
registry client and are folded into `env.fetched`.)  Returns the
raised error, if any, together with the filesystem afterwards. -/
def downloadModelSnapshot (env : Env) (s : Settings) (fs : FS) :
    Option BootstrapErr × FS :=
  let storeDir := storeDirOf env s
  let repoDir := resolveRepoDir env s
  let fs1 := (fs.mkdirP storeDir).mkdirP repoDir
  if env.fetchOk then
    (none, fs1.addFiles (env.fetched.map (fun f => repoDir ++ f)))
  else
    (some (.downloadFailed s.model_repo_id repoDir), fs1)

/-- Decidable equality for `Except`, so run outcomes can be compared
by evaluation. -/
instance exceptDecEq {ε α : Type} [DecidableEq ε] [DecidableEq α] :
    DecidableEq (Except ε α)
  | .ok a, .ok b =>
    if h : a = b then .isTrue (by rw [h]) else .isFalse (by simp [h])
  | .ok _, .error _ => .isFalse (by simp)
  | .error _, .ok _ => .isFalse (by simp)
  | .error e, .error f =>
    if h : e = f then .isTrue (by rw [h]) else .isFalse (by simp [h])

/-- Outcome of one `ensure_model_store` run: the returned value (or
raised error), the filesystem afterwards, and how many network
fetches were attempted. -/
structure RunOut where
  res : Except BootstrapErr (Option FsPath)
  fs : FS
  fetches : Nat
deriving DecidableEq, Repr

/-- `ensure_model_store` from src/app/model_store.py, line by line:
flag gate, store-root mkdir, cache-hit check, download gate, snapshot
fetch, post-fetch re-check, best-effort marker write. -/
def ensureModelStore (s : Settings) (env : Env) (fs : FS) : RunOut :=
  let shouldBootstrap := s.require_local_model_store ||
    s.auto_download_model_store || s.model_force_download
  if shouldBootstrap = false then ⟨.ok none, fs, 0⟩
  else
    let storeDir := storeDirOf env s
    let fs1 := fs.mkdirP storeDir
    let repoDir := resolveRepoDir env s
    let hasExpected := hasExpectedArtifacts fs1 repoDir s.model_filename
    if hasExpected && !s.model_force_download then
      ⟨.ok (some storeDir), writeBootstrapMarker env fs1 storeDir, 0⟩
    else
      let shouldDownload := s.model_force_download || s.auto_download_model_store
      if shouldDownload = false then
        if s.require_local_model_store then
          ⟨.error (.artifactsMissingDownloadDisabled repoDir), fs1, 0⟩
        else ⟨.ok none, fs1, 0⟩
      else
        let dl := downloadModelSnapshot env s fs1
        match dl.1 with
        | some e => ⟨.error e, dl.2, 1⟩
        | none =>
          if hasExpectedArtifacts dl.2 repoDir s.model_filename = false then
            ⟨.error (.artifactsMissingAfterDownload repoDir), dl.2, 1⟩
          else
            ⟨.ok (some storeDir), writeBootstrapMarker env dl.2 storeDir, 1⟩

/-! ## Inference request pipeline (src/main.py, handler `ocr`)

The handler's collaborators that live outside src/ are embedded as
follows.  `APIError` (app/errors.py) and `ErrorResponse`/`OCRResponse`
(app/schemas.py) are plain data carriers, reconstructed from their use
in src/main.py and the spec's API Error data model.  The allow-list
`ALLOWED_CONTENT_TYPES` (app/image_processing.py) is an abstract
parameter — every claim about it quantifies over membership only.  The
backend call `vllm_client.run_ocr` under `asyncio.wait_for` is an
oracle `BackendOutcome`: the distinct exception classes the handler
catches are its constructors. -/

/-- Modelled from the spec: the `APIError` carrier of app/errors.py
(not under src/) — status code, stable error code string, human
message, as raised throughout src/main.py. -/
structure APIError where
  status_code : Nat
  error_code : String
  message : String
deriving DecidableEq, Repr

/-- Outcome of `await asyncio.wait_for(vllm_client.run_ocr(...), timeout)`:
the return value, or the exception class the handler distinguishes.
`deadlineTimeout` is `asyncio.TimeoutError` (the configured inference
timeout elapsed); `clientTimeout` is `VLLMTimeoutError`; `vllmError` is
a backend-reported `VLLMError`; `unexpected` is any other exception. -/
inductive BackendOutcome where
  | ok (text : String)
  | deadlineTimeout
  | clientTimeout
  | vllmError
  | unexpected
deriving DecidableEq, Repr

/-- The multipart upload as the handler sees it: declared content type
(absent when the part carries none), advisory filename, raw bytes. -/
structure UploadedFile where
  content_type : Option String
  filename : Option String
  payload : List Nat
deriving DecidableEq, Repr

/-- Modelled from the spec: the `OCRResponse` schema of app/schemas.py
(not under src/) — correlation id, model name, markdown text, elapsed
milliseconds, as constructed in src/main.py. -/
structure OCRResp where
  request_id : String
  model : String
  markdown : String
  processing_ms : Nat
deriving DecidableEq, Repr

/-- One run of the `ocr` handler: its outcome plus the two facts the
temporal claims need — whether `await file.read()` was reached and
whether the backend invocation was reached. -/
structure PipelineRun where
  outcome : Except APIError OCRResp
  bodyRead : Bool
  backendCalled : Bool
deriving DecidableEq, Repr

/-- `file.content_type not in ALLOWED_CONTENT_TYPES` (negated): a
missing declared type is never in the allow-list. -/
def contentTypeAllowed (allowed : List String) (ct : Option String) : Bool :=
  match ct with
  | some t => allowed.contains t
  | none => false

/-- The `ocr` handler of src/main.py as a function of its inputs:
content-type gate, body read, non-empty gate, size gate, bounded
backend invoke, response shaping.  `allowed` is
`ALLOWED_CONTENT_TYPES`; `request_id` comes from the middleware;
`elapsed_ms` abstracts the wall clock. -/
def ocrHandler (s : Settings) (allowed : List String) (request_id : String)
    (elapsed_ms : Nat) (file : UploadedFile) (backend : BackendOutcome) :
    PipelineRun :=
  if ¬ contentTypeAllowed allowed file.content_type then
    ⟨.error ⟨415, "unsupported_media_type", "Unsupported file type"⟩,
      false, false⟩
  else
    let payload := file.payload
    if payload = [] then
      ⟨.error ⟨400, "empty_file", "Uploaded file is empty."⟩, true, false⟩
    else if (payload.length : Int) > s.max_upload_bytes then
      ⟨.error ⟨413, "file_too_large", "File exceeds limit."⟩, true, false⟩
    else
      match backend with
      | .ok text =>
        ⟨.ok ⟨request_id, s.model_name, pyStrip text, elapsed_ms⟩, true, true⟩
      | .deadlineTimeout =>
        ⟨.error ⟨408, "inference_timeout", "Inference timed out."⟩, true, true⟩
      | .clientTimeout =>
        ⟨.error ⟨408, "inference_timeout", "Inference timed out."⟩, true, true⟩
      | .vllmError =>
        ⟨.error ⟨503, "inference_failure", "Model inference failed."⟩,
          true, true⟩
      | .unexpected =>
        ⟨.error ⟨503, "inference_failure", "Model inference failed."⟩,
          true, true⟩

/-! ## Correlation id and wire responses (middleware and handlers) -/

/-- `request.headers.get("x-request-id", str(uuid4()))` from the
middleware `request_context_middleware`: the inbound header value when
present, else the freshly generated identifier. -/
def requestIdOf (inboundHeader : Option String) (freshUuid : String) : String :=
  inboundHeader.getD freshUuid

/-- The client-visible response shape: status, correlation id, and
either an error code or the success payload. -/
structure WireResponse where
  status : Nat
  request_id : String
  error_code : Option String
  markdown : Option String
  model : Option String
deriving DecidableEq, Repr

/-- `api_error_handler` from src/main.py: an `APIError` becomes a JSON
response with the error's status and code and the request's
correlation id. -/
def apiErrorHandler (request_id : String) (e : APIError) : WireResponse :=
  ⟨e.status_code, request_id, some e.error_code, none, none⟩

/-- `validation_error_handler` from src/main.py (status 422). -/
def validationErrorHandler (request_id : String) : WireResponse :=
  ⟨422, request_id, some "validation_error", none, none⟩

/-- `generic_error_handler` from src/main.py (status 500). -/
def genericErrorHandler (request_id : String) : WireResponse :=
  ⟨500, request_id, some "internal_server_error", none, none⟩

/-- The whole request path for `POST /api/v1/ocr`: middleware computes
the correlation id, the handler runs, and its outcome is rendered —
success as a 200 `OCRResponse` body, an `APIError` via
`api_error_handler`.  Returns the wire response together with the
handler run's body-read and backend-called facts. -/
def ocrEndpoint (s : Settings) (allowed : List String)
    (inboundHeader : Option String) (freshUuid : String) (elapsed_ms : Nat)
    (file : UploadedFile) (backend : BackendOutcome) :
    WireResponse × Bool × Bool :=
  let rid := requestIdOf inboundHeader freshUuid
  let run := ocrHandler s allowed rid elapsed_ms file backend
  match run.outcome with
  | .ok resp =>
    (⟨200, resp.request_id, none, some resp.markdown, some resp.model⟩,
      run.bodyRead, run.backendCalled)
  | .error e => (apiErrorHandler rid e, run.bodyRead, run.backendCalled)

/-! ## Concrete fixtures for witnesses and counterexamples -/

/-- Modelled from the spec: an example value of the configured
content-type allow-list (`ALLOWED_CONTENT_TYPES` of
app/image_processing.py is not under src/); every theorem about the
allow-list quantifies over it, this value only instantiates witnesses. -/
def allowedEx : List String := ["image/jpeg", "image/png", "image/webp"]

/-- A configuration snapshot with the source's default field values. -/
def exampleSettings : Settings where
  app_name := DISPLAY_MODEL_NAME
  log_level := "INFO"
  model_name := DISPLAY_MODEL_NAME
  model_store_dir := "model_store"
  require_local_model_store := true
  auto_download_model_store := false
  model_force_download := false
  model_repo_id := "allenai/olmOCR-2-7B-1025-FP8"
  model_filename := none
  hf_token := none
  vllm_base_url := "http://127.0.0.1:8001"
  vllm_model_id := DISPLAY_MODEL_NAME
  vllm_timeout_seconds := 120
  vllm_startup_timeout_seconds := 600
  vllm_port := 8001
  vllm_dtype := "bfloat16"
  vllm_tensor_parallel_size := 1
  top_k := 1
  max_tokens := 4096
  inference_timeout_seconds := 90
  max_upload_megabytes := 15

/-- The default configuration with a zero upload ceiling, so that a
one-byte payload already exceeds it. -/
def tinyCeilingSettings : Settings :=
  { exampleSettings with max_upload_megabytes := 0 }

/-- The default raw configuration with a zero inference timeout and a
negative client timeout. -/
def nonPositiveTimeoutRaw : RawSettings :=
  { defaultRaw with inference_timeout_seconds := 0, vllm_timeout_seconds := -5 }

/-- A one-byte upload declared as `application/pdf` (not in the
allow-list). -/
def oversizedPdfFile : UploadedFile :=
  ⟨some "application/pdf", some "big.pdf", [7]⟩

/-- A one-byte upload declared as `image/jpeg` (in the allow-list). -/
def oversizedJpegFile : UploadedFile :=
  ⟨some "image/jpeg", some "big.jpg", [7]⟩

/-- A bootstrap configuration with auto-download on and an exact
filename configured. -/
def autoDownloadSettings : Settings :=
  { exampleSettings with
    require_local_model_store := false
    auto_download_model_store := true
    model_filename := some "model.bin"
    model_repo_id := "org/repo" }

/-- The default configuration pointed at the `org/repo` repository
(require-local set, downloads off). -/
def preloadedSettings : Settings :=
  { exampleSettings with model_repo_id := "org/repo" }

/-- `preloadedSettings` with force-refresh set. -/
def forceSettings : Settings :=
  { preloadedSettings with model_force_download := true }

/-- An environment whose registry fetch succeeds but deposits no
files (for example, the allow-pattern matches nothing in the remote
repository). -/
def emptyFetchEnv : Env :=
  { resolve := fun d => [d], fetched := [], fetchOk := true,
    markerWriteOk := true }

/-- An environment whose registry fetch deposits exactly the expected
file. -/
def goodFetchEnv : Env :=
  { emptyFetchEnv with fetched := [["model.bin"]] }

/-- The empty filesystem. -/
def emptyFS : FS := ⟨[], []⟩

/-- A filesystem in which the `org/repo` artifacts already exist under
the store root. -/
def preloadedFS : FS :=
  ⟨[["model_store"], ["model_store", "org--repo"]],
    [["model_store", "org--repo", "model.bin"]]⟩

/-! ## Claims about configuration validation -/

/-- C2 (counterexample): a configuration with non-positive timeouts is
accepted by construction — the source has no validator for any timeout
field — so the claim that such a snapshot fails validation at startup
is false.  The invalid values are carried through unchanged. -/
theorem c2_counterexample :
    nonPositiveTimeoutRaw.inference_timeout_seconds ≤ 0 ∧
    nonPositiveTimeoutRaw.vllm_timeout_seconds ≤ 0 ∧
    (mkSettings id none nonPositiveTimeoutRaw).isOk = true ∧
    (mkSettings id none nonPositiveTimeoutRaw).toOption.map
        (fun s => (s.inference_timeout_seconds, s.vllm_timeout_seconds)) =
      some (0, -5) := by
  decide

/-- C2 (amended): constructing the configuration snapshot with a port
outside 1-65535 fails validation at construction; timeouts, however,
are not validated. -/
theorem c2_port_out_of_range_rejected (expandUser : String → String)
    (envToken : Option String) (raw : RawSettings)
    (h : raw.vllm_port < 1 ∨ raw.vllm_port > 65535) :
    (mkSettings expandUser envToken raw).isOk = false := by
  have hport : validateVllmPort raw.vllm_port =
      Except.error "vllm_port must be between 1 and 65535" := by
    unfold validateVllmPort
    simp [h]
  unfold mkSettings
  simp only [bind, Except.bind]
  cases validateLogLevel raw.log_level with
  | error e => rfl
  | ok lv =>
    cases enforceDisplayName raw.app_name with
    | error e => rfl
    | ok an =>
      cases enforceDisplayName raw.model_name with
      | error e => rfl
      | ok mn =>
        cases enforceDisplayName raw.vllm_model_id with
        | error e => rfl
        | ok mid =>
          cases normalizeVllmBaseUrl raw.vllm_base_url with
          | error e => rfl
          | ok bu =>
            rw [hport]
            rfl

/-- C2 (witness): port 0 with otherwise-default raw values is
rejected. -/
theorem c2_port_out_of_range_rejected_witness :
    (mkSettings id none { defaultRaw with vllm_port := 0 }).isOk = false :=
  c2_port_out_of_range_rejected id none { defaultRaw with vllm_port := 0 }
    (by decide)

/-! ## Claims about the request pipeline -/

/-- C1 (counterexample): a payload whose length exceeds the configured
ceiling but whose declared content type is outside the allow-list gets
status 415, not 413 — the content-type gate runs first, so the claimed
"413 regardless of the payload's declared content type" is false. -/
theorem c1_counterexample :
    ((oversizedPdfFile.payload.length : Int) >
        tinyCeilingSettings.max_upload_bytes) ∧
    (ocrEndpoint tinyCeilingSettings allowedEx none "rid-c1" 0
        oversizedPdfFile (.ok "text")).1.status = 415 ∧
    ¬ (ocrEndpoint tinyCeilingSettings allowedEx none "rid-c1" 0
        oversizedPdfFile (.ok "text")).1.status = 413 := by
  decide

/-- C1 (amended): for every upload whose declared content type is in
the allow-list, when the configured ceiling is nonnegative and the
payload length exceeds it, the pipeline returns 413 with error code
`file_too_large`, regardless of the inference outcome. -/
theorem c1_oversized_payload_returns_413 (s : Settings)
    (allowed : List String) (hdr : Option String) (fresh : String)
    (ms : Nat) (file : UploadedFile) (backend : BackendOutcome) (t : String)
    (hct : file.content_type = some t) (hmem : allowed.contains t = true)
    (hceil : 0 ≤ s.max_upload_bytes)
    (hsz : (file.payload.length : Int) > s.max_upload_bytes) :
    (ocrEndpoint s allowed hdr fresh ms file backend).1.status = 413 ∧
    (ocrEndpoint s allowed hdr fresh ms file backend).1.error_code =
      some "file_too_large" := by
  have hne : ¬ file.payload = [] := by
    intro h
    rw [h] at hsz
    simp only [List.length_nil, Nat.cast_zero] at hsz
    omega
  have hmem' : t ∈ allowed := by simpa using hmem
  have hallow : contentTypeAllowed allowed (some t) = true := by
    simp [contentTypeAllowed, hmem']
  simp [ocrEndpoint, ocrHandler, hct, hallow, hne, hsz, apiErrorHandler]

/-- C1 (witness): a one-byte `image/jpeg` upload against a zero
ceiling yields 413 `file_too_large`. -/
theorem c1_oversized_payload_returns_413_witness :
    (ocrEndpoint tinyCeilingSettings allowedEx none "rid-c1w" 0
        oversizedJpegFile .deadlineTimeout).1.status = 413 ∧
    (ocrEndpoint tinyCeilingSettings allowedEx none "rid-c1w" 0
        oversizedJpegFile .deadlineTimeout).1.error_code =
      some "file_too_large" :=
  c1_oversized_payload_returns_413 tinyCeilingSettings allowedEx none
    "rid-c1w" 0 oversizedJpegFile .deadlineTimeout "image/jpeg"
    (by decide) (by decide) (by decide) (by decide)

/-- C5: an upload whose declared content type is not in the configured
allow-list yields 415 `unsupported_media_type`, the body is never
read, and the backend is never invoked. -/
theorem c5_unsupported_type_short_circuits (s : Settings)
    (allowed : List String) (hdr : Option String) (fresh : String)
    (ms : Nat) (file : UploadedFile) (backend : BackendOutcome)
    (h : contentTypeAllowed allowed file.content_type = false) :
    (ocrEndpoint s allowed hdr fresh ms file backend).1.status = 415 ∧
    (ocrEndpoint s allowed hdr fresh ms file backend).1.error_code =
      some "unsupported_media_type" ∧
    (ocrEndpoint s allowed hdr fresh ms file backend).2.1 = false ∧
    (ocrEndpoint s allowed hdr fresh ms file backend).2.2 = false := by
  simp [ocrEndpoint, ocrHandler, h, apiErrorHandler]

/-- C5 (witness): an `application/pdf` upload short-circuits with 415
before the body read and before any backend call. -/
theorem c5_unsupported_type_short_circuits_witness :
    (ocrEndpoint exampleSettings allowedEx none "rid-c5" 0
        oversizedPdfFile (.ok "hello")).1.status = 415 ∧
    (ocrEndpoint exampleSettings allowedEx none "rid-c5" 0
        oversizedPdfFile (.ok "hello")).1.error_code =
      some "unsupported_media_type" ∧
    (ocrEndpoint exampleSettings allowedEx none "rid-c5" 0
        oversizedPdfFile (.ok "hello")).2.1 = false ∧
    (ocrEndpoint exampleSettings allowedEx none "rid-c5" 0
        oversizedPdfFile (.ok "hello")).2.2 = false :=
  c5_unsupported_type_short_circuits exampleSettings allowedEx none
    "rid-c5" 0 oversizedPdfFile (.ok "hello") (by decide)

/-- C6: when the backend invocation exceeds the configured inference
timeout (either the `asyncio.wait_for` deadline or the client's own
timeout), the pipeline returns 408 `inference_timeout`, and in
particular neither 500 nor 503. -/
theorem c6_timeout_maps_to_408 (s : Settings) (allowed : List String)
    (hdr : Option String) (fresh : String) (ms : Nat)
    (file : UploadedFile) (backend : BackendOutcome)
    (hct : contentTypeAllowed allowed file.content_type = true)
    (hne : file.payload ≠ [])
    (hsz : ¬ ((file.payload.length : Int) > s.max_upload_bytes))
    (hb : backend = .deadlineTimeout ∨ backend = .clientTimeout) :
    (ocrEndpoint s allowed hdr fresh ms file backend).1.status = 408 ∧
    (ocrEndpoint s allowed hdr fresh ms file backend).1.error_code =
      some "inference_timeout" ∧
    (ocrEndpoint s allowed hdr fresh ms file backend).1.status ≠ 500 ∧
    (ocrEndpoint s allowed hdr fresh ms file backend).1.status ≠ 503 := by
  rcases hb with hb | hb <;>
    simp [ocrEndpoint, ocrHandler, hct, hne, hsz, hb, apiErrorHandler]

/-- C6 (witness): a small allowed upload whose backend call times out
yields 408 and neither 500 nor 503. -/
theorem c6_timeout_maps_to_408_witness :
    (ocrEndpoint exampleSettings allowedEx none "rid-c6" 0
        oversizedJpegFile .deadlineTimeout).1.status = 408 ∧
    (ocrEndpoint exampleSettings allowedEx none "rid-c6" 0
        oversizedJpegFile .deadlineTimeout).1.error_code =
      some "inference_timeout" ∧
    (ocrEndpoint exampleSettings allowedEx none "rid-c6" 0
        oversizedJpegFile .deadlineTimeout).1.status ≠ 500 ∧
    (ocrEndpoint exampleSettings allowedEx none "rid-c6" 0
        oversizedJpegFile .deadlineTimeout).1.status ≠ 503 :=
  c6_timeout_maps_to_408 exampleSettings allowedEx none "rid-c6" 0
    oversizedJpegFile .deadlineTimeout (by decide) (by decide) (by decide)
    (Or.inl rfl)

/-- Helper: on every path through the endpoint the wire response
carries the middleware's correlation id. -/
lemma ocrEndpoint_request_id (s : Settings) (allowed : List String)
    (hdr : Option String) (fresh : String) (ms : Nat)
    (file : UploadedFile) (backend : BackendOutcome) :
    (ocrEndpoint s allowed hdr fresh ms file backend).1.request_id =
      requestIdOf hdr fresh := by
  unfold ocrEndpoint ocrHandler
  by_cases h1 : contentTypeAllowed allowed file.content_type = false
  · simp [h1, apiErrorHandler]
  · by_cases h2 : file.payload = []
    · simp [h1, h2, apiErrorHandler]
    · by_cases h3 : s.max_upload_bytes < (file.payload.length : Int)
      · simp [h1, h2, h3, apiErrorHandler]
      · cases backend <;> simp [h1, h2, h3, apiErrorHandler]

/-- C9: on every path — success and every error shape — the response's
correlation id equals the inbound correlation header value when that
header is present, and the freshly generated identifier otherwise. -/
theorem c9_correlation_id (s : Settings) (allowed : List String)
    (hdr : Option String) (fresh : String) (ms : Nat)
    (file : UploadedFile) (backend : BackendOutcome) :
    (ocrEndpoint s allowed hdr fresh ms file backend).1.request_id =
      (match hdr with | some v => v | none => fresh) ∧
    (validationErrorHandler (requestIdOf hdr fresh)).request_id =
      (match hdr with | some v => v | none => fresh) ∧
    (genericErrorHandler (requestIdOf hdr fresh)).request_id =
      (match hdr with | some v => v | none => fresh) := by
  have h := ocrEndpoint_request_id s allowed hdr fresh ms file backend
  cases hdr <;>
    simp_all [requestIdOf, validationErrorHandler, genericErrorHandler]

/-! ## Lemmas: bootstrap filesystem operations only add entries -/

lemma FS.le_refl (fs : FS) : fs.le fs :=
  ⟨fun _ h => h, fun _ h => h⟩

lemma FS.le_trans {a b c : FS} (h1 : a.le b) (h2 : b.le c) : a.le c :=
  ⟨fun p hp => h2.1 p (h1.1 p hp), fun p hp => h2.2 p (h1.2 p hp)⟩

lemma FS.dirs_addFile (fs : FS) (p : FsPath) :
    (fs.addFile p).dirs = fs.dirs := by
  unfold FS.addFile
  split <;> rfl

lemma FS.files_mkdirP (fs : FS) (p : FsPath) :
    (fs.mkdirP p).files = fs.files := by
  unfold FS.mkdirP
  split <;> rfl

lemma FS.le_mkdirP (fs : FS) (p : FsPath) : fs.le (fs.mkdirP p) := by
  unfold FS.mkdirP
  split
  · exact FS.le_refl fs
  · exact ⟨fun q hq => List.mem_cons_of_mem _ hq, fun q hq => hq⟩

lemma FS.mem_dirs_mkdirP (fs : FS) (p : FsPath) : p ∈ (fs.mkdirP p).dirs := by
  unfold FS.mkdirP
  split
  · next h => exact List.mem_of_elem_eq_true h
  · exact List.mem_cons_self _ _

lemma FS.mkdirP_eq_of_mem {fs : FS} {p : FsPath} (h : p ∈ fs.dirs) :
    fs.mkdirP p = fs := by
  unfold FS.mkdirP
  rw [if_pos (List.elem_eq_true_of_mem h)]

lemma FS.le_addFile (fs : FS) (p : FsPath) : fs.le (fs.addFile p) := by
  unfold FS.addFile
  split
  · exact FS.le_refl fs
  · exact ⟨fun q hq => hq, fun q hq => List.mem_cons_of_mem _ hq⟩

lemma FS.le_addFiles (fs : FS) (ps : List FsPath) : fs.le (fs.addFiles ps) := by
  induction ps generalizing fs with
  | nil => exact FS.le_refl fs
  | cons p ps ih =>
    exact FS.le_trans (FS.le_addFile fs p) (ih (fs.addFile p))

lemma FS.dirs_addFiles (fs : FS) (ps : List FsPath) :
    (fs.addFiles ps).dirs = fs.dirs := by
  induction ps generalizing fs with
  | nil => rfl
  | cons p ps ih =>
    show ((fs.addFile p).addFiles ps).dirs = fs.dirs
    rw [ih (fs.addFile p), FS.dirs_addFile]

lemma le_writeMarker (env : Env) (fs : FS) (d : FsPath) :
    fs.le (writeBootstrapMarker env fs d) := by
  unfold writeBootstrapMarker
  split
  · exact FS.le_addFile fs _
  · exact FS.le_refl fs

lemma dirs_writeMarker (env : Env) (fs : FS) (d : FsPath) :
    (writeBootstrapMarker env fs d).dirs = fs.dirs := by
  unfold writeBootstrapMarker
  split
  · exact FS.dirs_addFile fs _
  · rfl

lemma contains_mono {l l' : List FsPath} (hsub : ∀ x ∈ l, x ∈ l')
    {a : FsPath} (h : l.contains a = true) : l'.contains a = true :=
  List.elem_eq_true_of_mem (hsub a (List.mem_of_elem_eq_true h))

lemma FS.dirExists_mono {fs fs' : FS} (h : fs.le fs') {p : FsPath}
    (hd : fs.dirExists p = true) : fs'.dirExists p = true := by
  unfold FS.dirExists at hd ⊢
  rcases (Bool.or_eq_true _ _).mp hd with hc | ha
  · exact (Bool.or_eq_true _ _).mpr (Or.inl (contains_mono h.1 hc))
  · obtain ⟨f, hf, hpf⟩ := List.any_eq_true.mp ha
    exact (Bool.or_eq_true _ _).mpr (Or.inr (List.any_eq_true.mpr ⟨f, h.2 f hf, hpf⟩))

lemma insertPath_length (x : FsPath) (l : List FsPath) :
    (insertPath x l).length = l.length + 1 := by
  induction l with
  | nil => rfl
  | cons y ys ih =>
    unfold insertPath
    split
    · rfl
    · simp only [List.length_cons, ih]

lemma sortPaths_length (l : List FsPath) : (sortPaths l).length = l.length := by
  induction l with
  | nil => rfl
  | cons x xs ih =>
    show (insertPath x (sortPaths xs)).length = xs.length + 1
    rw [insertPath_length, ih]

lemma sortPaths_ne_nil {l : List FsPath} (h : l ≠ []) : sortPaths l ≠ [] := by
  intro hs
  apply h
  have hl := sortPaths_length l
  rw [hs] at hl
  exact List.length_eq_zero.mp hl.symm

lemma head?_isSome_of_ne_nil {α : Type} {l : List α} (h : l ≠ []) :
    l.head?.isSome = true := by
  cases l with
  | nil => exact absurd rfl h
  | cons a t => rfl

lemma filter_ne_nil_mono {l l' : List FsPath} (hsub : ∀ x ∈ l, x ∈ l')
    {p : FsPath → Bool} (h : l.filter p ≠ []) : l'.filter p ≠ [] := by
  rw [Ne, List.filter_eq_nil_iff] at h
  push_neg at h
  obtain ⟨x, hx, hpx⟩ := h
  rw [Ne, List.filter_eq_nil_iff]
  push_neg
  exact ⟨x, hsub x hx, hpx⟩

lemma rglob_head_mono {fs fs' : FS} (h : fs.le fs') (rd : FsPath)
    (pc : List String)
    (hf : (sortPaths (fs.files.filter (rglobMatch rd pc))).head?.isSome = true) :
    (sortPaths (fs'.files.filter (rglobMatch rd pc))).head?.isSome = true := by
  have hne : fs.files.filter (rglobMatch rd pc) ≠ [] := by
    intro hnil
    rw [hnil] at hf
    simp [sortPaths] at hf
  exact head?_isSome_of_ne_nil (sortPaths_ne_nil (filter_ne_nil_mono h.2 hne))

lemma findModelFile_isSome_mono {fs fs' : FS} (h : fs.le fs') (rd : FsPath)
    (pat : String) (hf : (findModelFile fs rd pat).isSome = true) :
    (findModelFile fs' rd pat).isSome = true := by
  unfold findModelFile at hf ⊢
  by_cases hd : fs.dirExists rd = false
  · rw [if_pos hd] at hf
    exact absurd hf (by simp)
  · have hdt : fs.dirExists rd = true := by
      cases hx : fs.dirExists rd
      · exact absurd hx hd
      · rfl
    have hd' : fs'.dirExists rd = true := FS.dirExists_mono h hdt
    rw [if_neg hd] at hf
    rw [if_neg (by simp [hd'])]
    by_cases hn : pyStrip pat = ""
    · rw [if_pos hn] at hf
      exact absurd hf (by simp)
    · rw [if_neg hn] at hf
      rw [if_neg hn]
      by_cases hb' :
          (!hasWildcard (pyStrip pat) &&
            fs'.fileExists (rd ++ slashComponents (pyStrip pat))) = true
      · rw [if_pos hb']
        rfl
      · rw [if_neg hb']
        by_cases hb :
            (!hasWildcard (pyStrip pat) &&
              fs.fileExists (rd ++ slashComponents (pyStrip pat))) = true
        · exfalso
          apply hb'
          rcases (Bool.and_eq_true _ _).mp hb with ⟨hw, hfe⟩
          exact (Bool.and_eq_true _ _).mpr ⟨hw, contains_mono h.2 hfe⟩
        · rw [if_neg hb] at hf
          exact rglob_head_mono h rd (slashComponents (pyStrip pat)) hf

lemma hasExpectedArtifacts_mono {fs fs' : FS} (h : fs.le fs') (rd : FsPath)
    (mf : Option String) (he : hasExpectedArtifacts fs rd mf = true) :
    hasExpectedArtifacts fs' rd mf = true := by
  unfold hasExpectedArtifacts at he ⊢
  by_cases hd : fs.dirExists rd = false
  · rw [if_pos hd] at he
    exact absurd he (by simp)
  · have hdt : fs.dirExists rd = true := by
      cases hx : fs.dirExists rd
      · exact absurd hx hd
      · rfl
    have hd' : fs'.dirExists rd = true := FS.dirExists_mono h hdt
    rw [if_neg hd] at he
    rw [if_neg (by simp [hd'])]
    cases mf with
    | some pattern => exact findModelFile_isSome_mono h rd pattern he
    | none =>
      obtain ⟨f, hfmem, hfp⟩ := List.any_eq_true.mp he
      exact List.any_eq_true.mpr ⟨f, h.2 f hfmem, hfp⟩

lemma le_downloadModelSnapshot (env : Env) (s : Settings) (fs : FS) :
    fs.le (downloadModelSnapshot env s fs).2 := by
  unfold downloadModelSnapshot
  simp only []
  split
  · exact FS.le_trans (FS.le_trans (FS.le_mkdirP _ _) (FS.le_mkdirP _ _))
      (FS.le_addFiles _ _)
  · exact FS.le_trans (FS.le_mkdirP _ _) (FS.le_mkdirP _ _)

/-! ## Claims about the model artifact lifecycle manager -/

/-- C4: with force-refresh set, `ensure_model_store` always performs
exactly one snapshot fetch, whatever the filesystem already holds —
the cache-hit branch requires force-refresh unset, and the download
gate is satisfied by the force flag alone. -/
theorem c4_force_always_fetches (s : Settings) (env : Env) (fs : FS)
    (h : s.model_force_download = true) :
    (ensureModelStore s env fs).fetches = 1 := by
  unfold ensureModelStore
  rw [if_neg (by simp [h]), if_neg (by simp [h]), if_neg (by simp [h])]
  simp only []
  split
  · rfl
  · split <;> rfl

/-- C4 (witness): force-refresh on a filesystem that already holds the
expected artifacts still fetches once. -/
theorem c4_force_always_fetches_witness :
    (ensureModelStore forceSettings emptyFetchEnv preloadedFS).fetches = 1 :=
  c4_force_always_fetches forceSettings emptyFetchEnv preloadedFS (by decide)

/-- C8: the best-effort marker write never affects the returned value
or the fetch count — a run in which the marker write fails returns
exactly what the same run with a successful write returns. -/
theorem c8_marker_write_failure_not_fatal (s : Settings) (env : Env)
    (fs : FS) (b : Bool) :
    (ensureModelStore s { env with markerWriteOk := b } fs).res =
      (ensureModelStore s { env with markerWriteOk := true } fs).res ∧
    (ensureModelStore s { env with markerWriteOk := b } fs).fetches =
      (ensureModelStore s { env with markerWriteOk := true } fs).fetches := by
  unfold ensureModelStore downloadModelSnapshot
  simp only [storeDirOf, resolveRepoDir]
  constructor <;>
    · repeat' split <;> try rfl

/-- C10: whenever `ensure_model_store` returns a path, it is the
resolved store root, and (for a non-empty escaped repo id) never the
per-repo artifact subdirectory computed by `resolve_repo_dir`. -/
theorem c10_nonnone_result_is_store_root (s : Settings) (env : Env)
    (fs : FS) (p : FsPath)
    (hres : (ensureModelStore s env fs).res = .ok (some p)) :
    p = storeDirOf env s ∧
      (repoIdEscape s.model_repo_id ≠ "" → p ≠ resolveRepoDir env s) := by
  have hp : p = storeDirOf env s := by
    unfold ensureModelStore at hres
    simp only [] at hres
    by_cases h1 : (s.require_local_model_store || s.auto_download_model_store ||
        s.model_force_download) = false
    · rw [if_pos h1] at hres
      simp at hres
    · rw [if_neg h1] at hres
      by_cases h2 : (hasExpectedArtifacts (fs.mkdirP (storeDirOf env s))
          (resolveRepoDir env s) s.model_filename &&
          !s.model_force_download) = true
      · rw [if_pos h2] at hres
        simp at hres
        exact hres.symm
      · rw [if_neg h2] at hres
        by_cases h3 : (s.model_force_download ||
            s.auto_download_model_store) = false
        · rw [if_pos h3] at hres
          by_cases h4 : s.require_local_model_store = true
          · rw [if_pos h4] at hres
            simp at hres
          · rw [if_neg h4] at hres
            simp at hres
        · rw [if_neg h3] at hres
          cases hdl : (downloadModelSnapshot env s
              (fs.mkdirP (storeDirOf env s))).1 with
          | some e =>
            rw [hdl] at hres
            simp at hres
          | none =>
            rw [hdl] at hres
            by_cases h5 : hasExpectedArtifacts
                (downloadModelSnapshot env s (fs.mkdirP (storeDirOf env s))).2
                (resolveRepoDir env s) s.model_filename = false
            · rw [if_pos h5] at hres
              simp at hres
            · rw [if_neg h5] at hres
              simp at hres
              exact hres.symm
  refine ⟨hp, fun hne heq => ?_⟩
  rw [hp] at heq
  unfold resolveRepoDir joinComponent at heq
  rw [if_neg hne] at heq
  have hlen := congrArg List.length heq
  simp at hlen

/-- C10 (witness): a cache-hit run over a preloaded store returns the
store root, which differs from the repo subdirectory. -/
theorem c10_nonnone_result_is_store_root_witness :
    ["model_store"] = storeDirOf emptyFetchEnv preloadedSettings ∧
      (repoIdEscape preloadedSettings.model_repo_id ≠ "" →
        ["model_store"] ≠ resolveRepoDir emptyFetchEnv preloadedSettings) :=
  c10_nonnone_result_is_store_root preloadedSettings emptyFetchEnv
    preloadedFS ["model_store"] (by decide)

/-- C7: a run that performed a fetch and whose final filesystem still
lacks the expected artifacts raised the
"download completed but artifacts missing" bootstrap error — such a
fetch is never reported as success. -/
theorem c7_fetch_without_artifacts_fails (s : Settings) (env : Env)
    (fs : FS)
    (hfetch : (ensureModelStore s env fs).fetches = 1)
    (hok : env.fetchOk = true)
    (hmiss : hasExpectedArtifacts (ensureModelStore s env fs).fs
      (resolveRepoDir env s) s.model_filename = false) :
    (ensureModelStore s env fs).res =
      .error (.artifactsMissingAfterDownload (resolveRepoDir env s)) := by
  unfold ensureModelStore at hfetch hmiss ⊢
  simp only [] at hfetch hmiss ⊢
  by_cases h1 : (s.require_local_model_store || s.auto_download_model_store ||
      s.model_force_download) = false
  · rw [if_pos h1] at hfetch
    simp at hfetch
  · rw [if_neg h1] at hfetch hmiss ⊢
    by_cases h2 : (hasExpectedArtifacts (fs.mkdirP (storeDirOf env s))
        (resolveRepoDir env s) s.model_filename &&
        !s.model_force_download) = true
    · rw [if_pos h2] at hfetch
      simp at hfetch
    · rw [if_neg h2] at hfetch hmiss ⊢
      by_cases h3 : (s.model_force_download ||
          s.auto_download_model_store) = false
      · rw [if_pos h3] at hfetch
        by_cases h4 : s.require_local_model_store = true
        · rw [if_pos h4] at hfetch
          simp at hfetch
        · rw [if_neg h4] at hfetch
          simp at hfetch
      · rw [if_neg h3] at hfetch hmiss ⊢
        cases hdl : (downloadModelSnapshot env s
            (fs.mkdirP (storeDirOf env s))).1 with
        | some e =>
          exfalso
          unfold downloadModelSnapshot at hdl
          simp only [] at hdl
          rw [if_pos hok] at hdl
          simp at hdl
        | none =>
          rw [hdl] at hmiss
          simp only [] at hmiss ⊢
          by_cases h5 : hasExpectedArtifacts
              (downloadModelSnapshot env s (fs.mkdirP (storeDirOf env s))).2
              (resolveRepoDir env s) s.model_filename = false
          · rw [if_pos h5]
          · exfalso
            rw [if_neg h5] at hmiss
            have ht : hasExpectedArtifacts
                (downloadModelSnapshot env s (fs.mkdirP (storeDirOf env s))).2
                (resolveRepoDir env s) s.model_filename = true := by
              cases hx : hasExpectedArtifacts
                  (downloadModelSnapshot env s (fs.mkdirP (storeDirOf env s))).2
                  (resolveRepoDir env s) s.model_filename
              · exact absurd hx h5
              · rfl
            have hmono := hasExpectedArtifacts_mono
              (le_writeMarker env
                (downloadModelSnapshot env s (fs.mkdirP (storeDirOf env s))).2
                (storeDirOf env s))
              (resolveRepoDir env s) s.model_filename ht
            rw [hmono] at hmiss
            simp at hmiss

/-- C7 (witness): an auto-download run whose fetch deposits nothing
fails with the post-fetch bootstrap error. -/
theorem c7_fetch_without_artifacts_fails_witness :
    (ensureModelStore autoDownloadSettings emptyFetchEnv emptyFS).res =
      .error (.artifactsMissingAfterDownload
        (resolveRepoDir emptyFetchEnv autoDownloadSettings)) :=
  c7_fetch_without_artifacts_fails autoDownloadSettings emptyFetchEnv emptyFS
    (by decide) (by decide) (by decide)

/-- C3 (counterexample): with auto-download on, an exact filename
configured, force-refresh unset, and a fetch that deposits nothing,
the first call fetches and fails its post-fetch check, and a second
call with the same configuration fetches again — two network fetches
in total, refuting "at most one network fetch in total". -/
theorem c3_counterexample :
    autoDownloadSettings.model_force_download = false ∧
    (ensureModelStore autoDownloadSettings emptyFetchEnv emptyFS).fetches +
      (ensureModelStore autoDownloadSettings emptyFetchEnv
        (ensureModelStore autoDownloadSettings emptyFetchEnv emptyFS).fs).fetches
      = 2 := by
  decide

/-- C3 (amended): when force-refresh is unset and the first call
returns successfully, two sequential calls with the same configuration
perform at most one network fetch in total, the second call performs
none (it is a pure filesystem check), and both calls return the same
result. -/
theorem c3_second_call_pure_after_success (s : Settings) (env : Env)
    (fs : FS)
    (hforce : s.model_force_download = false)
    (hok : (ensureModelStore s env fs).res.isOk = true) :
    (ensureModelStore s env fs).fetches +
      (ensureModelStore s env (ensureModelStore s env fs).fs).fetches ≤ 1 ∧
    (ensureModelStore s env (ensureModelStore s env fs).fs).fetches = 0 ∧
    (ensureModelStore s env (ensureModelStore s env fs).fs).res =
      (ensureModelStore s env fs).res := by
  unfold ensureModelStore at hok ⊢
  simp only [] at hok ⊢
  by_cases h1 : (s.require_local_model_store || s.auto_download_model_store ||
      s.model_force_download) = false
  · repeat rw [if_pos h1]
    simp
  · rw [if_neg h1] at hok
    repeat rw [if_neg h1]
    by_cases h2 : (hasExpectedArtifacts (fs.mkdirP (storeDirOf env s))
        (resolveRepoDir env s) s.model_filename &&
        !s.model_force_download) = true
    · rw [if_pos h2] at hok ⊢
      simp only []
      have hmem1 : storeDirOf env s ∈ (fs.mkdirP (storeDirOf env s)).dirs :=
        FS.mem_dirs_mkdirP fs _
      have hmem2 : storeDirOf env s ∈
          (writeBootstrapMarker env (fs.mkdirP (storeDirOf env s))
            (storeDirOf env s)).dirs := by
        rw [dirs_writeMarker]
        exact hmem1
      rw [FS.mkdirP_eq_of_mem hmem2]
      have hexp2 : (hasExpectedArtifacts
          (writeBootstrapMarker env (fs.mkdirP (storeDirOf env s))
            (storeDirOf env s))
          (resolveRepoDir env s) s.model_filename &&
          !s.model_force_download) = true := by
        refine (Bool.and_eq_true _ _).mpr ⟨?_, ?_⟩
        · exact hasExpectedArtifacts_mono (le_writeMarker env _ _) _ _
            ((Bool.and_eq_true _ _).mp h2).1
        · rw [hforce]
          rfl
      rw [if_pos hexp2]
      simp
    · rw [if_neg h2] at hok ⊢
      by_cases h3 : (s.model_force_download ||
          s.auto_download_model_store) = false
      · rw [if_pos h3] at hok
        repeat rw [if_pos h3]
        by_cases h4 : s.require_local_model_store = true
        · rw [if_pos h4] at hok
          simp [Except.isOk, Except.toBool] at hok
        · rw [if_neg h4] at hok
          repeat rw [if_neg h4]
          simp only []
          have hmem1 : storeDirOf env s ∈ (fs.mkdirP (storeDirOf env s)).dirs :=
            FS.mem_dirs_mkdirP fs _
          rw [FS.mkdirP_eq_of_mem hmem1]
          rw [if_neg h2]
          simp
      · rw [if_neg h3] at hok
        repeat rw [if_neg h3]
        cases hdl : (downloadModelSnapshot env s
            (fs.mkdirP (storeDirOf env s))).1 with
        | some e =>
          rw [hdl] at hok
          simp [Except.isOk, Except.toBool] at hok
        | none =>
          rw [hdl] at hok
          simp only [] at hok ⊢
          by_cases h5 : hasExpectedArtifacts
              (downloadModelSnapshot env s (fs.mkdirP (storeDirOf env s))).2
              (resolveRepoDir env s) s.model_filename = false
          · rw [if_pos h5] at hok
            simp [Except.isOk, Except.toBool] at hok
          · rw [if_neg h5] at hok ⊢
            simp only []
            have hE : hasExpectedArtifacts
                (downloadModelSnapshot env s (fs.mkdirP (storeDirOf env s))).2
                (resolveRepoDir env s) s.model_filename = true := by
              cases hx : hasExpectedArtifacts
                  (downloadModelSnapshot env s
                    (fs.mkdirP (storeDirOf env s))).2
                  (resolveRepoDir env s) s.model_filename
              · exact absurd hx h5
              · rfl
            have hmemd : storeDirOf env s ∈
                (downloadModelSnapshot env s
                  (fs.mkdirP (storeDirOf env s))).2.dirs :=
              (le_downloadModelSnapshot env s (fs.mkdirP (storeDirOf env s))).1
                _ (FS.mem_dirs_mkdirP fs _)
            have hmemw : storeDirOf env s ∈
                (writeBootstrapMarker env
                  (downloadModelSnapshot env s
                    (fs.mkdirP (storeDirOf env s))).2
                  (storeDirOf env s)).dirs := by
              rw [dirs_writeMarker]
              exact hmemd
            rw [FS.mkdirP_eq_of_mem hmemw]
            have hexp2 : (hasExpectedArtifacts
                (writeBootstrapMarker env
                  (downloadModelSnapshot env s
                    (fs.mkdirP (storeDirOf env s))).2
                  (storeDirOf env s))
                (resolveRepoDir env s) s.model_filename &&
                !s.model_force_download) = true := by
              refine (Bool.and_eq_true _ _).mpr ⟨?_, ?_⟩
              · exact hasExpectedArtifacts_mono (le_writeMarker env _ _) _ _ hE
              · rw [hforce]
                rfl
            rw [if_pos hexp2]
            simp

/-- C3 (witness): with auto-download on and a fetch that deposits the
expected file, the first call fetches once and succeeds, and the
second call fetches nothing and returns the same store path. -/
theorem c3_second_call_pure_after_success_witness :
    (ensureModelStore autoDownloadSettings goodFetchEnv emptyFS).fetches +
      (ensureModelStore autoDownloadSettings goodFetchEnv
        (ensureModelStore autoDownloadSettings goodFetchEnv
          emptyFS).fs).fetches ≤ 1 ∧
    (ensureModelStore autoDownloadSettings goodFetchEnv
      (ensureModelStore autoDownloadSettings goodFetchEnv
        emptyFS).fs).fetches = 0 ∧
    (ensureModelStore autoDownloadSettings goodFetchEnv
      (ensureModelStore autoDownloadSettings goodFetchEnv
        emptyFS).fs).res =
      (ensureModelStore autoDownloadSettings goodFetchEnv emptyFS).res :=
  c3_second_call_pure_after_success autoDownloadSettings goodFetchEnv emptyFS
    (by decide) (by decide)

end OCR
